import Mathlib

/-!
Verification of the repository-modification orchestration pipeline:
shallow embedding of the keyword extractor, discovery controller,
candidate narrower, operation application engine and publish workflow,
together with proofs about their specified properties.

Strings are embedded as lists of characters (`Str`); the JavaScript
string operations used by the source (`startsWith`, `includes`, `trim`,
`toLowerCase`, `split`, `split(sep).join(rep)`, `substring`) are given
executable definitions with the same semantics on the inputs the
pipeline handles.
-/

/-- Character-list model of a JavaScript string. -/
abbrev Str := List Char

/-- Coerce a Lean string literal into the character-list model. -/
def str (s : String) : Str := s.data

/-- JavaScript `s.startsWith(pre)`. -/
def jsStartsWith (s pre : Str) : Bool := pre.isPrefixOf s

/-- JavaScript `s.includes(sub)`: `sub` occurs as a contiguous substring of `s`. -/
def jsIncludes : Str → Str → Bool
  | [], sub => sub.isEmpty
  | s@(_ :: rest), sub => sub.isPrefixOf s || jsIncludes rest sub

/-- Whitespace characters recognised by JavaScript `trim` and `\s` (ASCII range). -/
def isSpaceChar (c : Char) : Bool :=
  decide (c = ' ' ∨ c = '\t' ∨ c = '\n' ∨ c = '\r' ∨ c = Char.ofNat 11 ∨ c = Char.ofNat 12)

/-- JavaScript `s.trim()`: strip whitespace from both ends. -/
def jsTrim (s : Str) : Str :=
  ((s.dropWhile isSpaceChar).reverse.dropWhile isSpaceChar).reverse

/-- JavaScript `s.toLowerCase()` (ASCII case mapping). -/
def jsToLower (s : Str) : Str := s.map Char.toLower

/-- JavaScript `s.split(sep)` for a single-character separator: splits on every
occurrence, keeping empty pieces. -/
def splitOnChar (sep : Char) : Str → List Str
  | [] => [[]]
  | c :: rest =>
    if c = sep then [] :: splitOnChar sep rest
    else
      match splitOnChar sep rest with
      | [] => [[c]]
      | t :: ts => (c :: t) :: ts

/-- Collapse every maximal run of whitespace characters to a single space.
The Boolean argument records whether the previous character was whitespace. -/
def compressWSAux : Bool → Str → Str
  | _, [] => []
  | inRun, c :: rest =>
    if isSpaceChar c then
      if inRun then compressWSAux true rest else ' ' :: compressWSAux true rest
    else c :: compressWSAux false rest

/-- JavaScript `s.split(/\s+/)`: pieces between maximal whitespace runs,
with an empty leading (trailing) piece when the string starts (ends) with
whitespace. -/
def splitWS (s : Str) : List Str := splitOnChar ' ' (compressWSAux false s)

/-- Interleave `rep` between consecutive characters of `s`:
JavaScript split on the empty string followed by join with `rep`. -/
def interleave (rep : Str) : Str → Str
  | [] => []
  | [c] => [c]
  | c :: rest => c :: (rep ++ interleave rep rest)

/-- Replace every non-overlapping leftmost occurrence of a nonempty `search`
by `rep`, scanning left to right.  The `Nat` argument is fuel; `s.length`
steps always suffice because every step consumes at least one character. -/
def replaceAllAux (search rep : Str) : Nat → Str → Str
  | 0, s => s
  | fuel + 1, s =>
    if search.isPrefixOf s && !search.isEmpty then
      rep ++ replaceAllAux search rep fuel (s.drop search.length)
    else
      match s with
      | [] => []
      | c :: rest => c :: replaceAllAux search rep fuel rest

/-- JavaScript `s.split(search).join(rep)`: literal global replacement. -/
def jsSplitJoin (s search rep : Str) : Str :=
  if search.isEmpty then interleave rep s
  else replaceAllAux search rep s.length s

/-- JavaScript `s.substring(0, n)`. -/
def jsSubstringTo (s : Str) (n : Nat) : Str := s.take n

/-- A list is a prefix of itself followed by anything. -/
theorem isPrefixOf_append_self (l m : Str) : l.isPrefixOf (l ++ m) = true := by
  induction l with
  | nil => simp [List.isPrefixOf]
  | cons c rest ih => simp [List.isPrefixOf, ih]

/-- `jsIncludes` is preserved when text is prepended on the left. -/
theorem jsIncludes_append_left (a b sub : Str) (h : jsIncludes b sub = true) :
    jsIncludes (a ++ b) sub = true := by
  induction a with
  | nil => simpa using h
  | cons c rest ih =>
    show (sub.isPrefixOf (c :: (rest ++ b)) || jsIncludes (rest ++ b) sub) = true
    rw [ih]
    simp

/-!
Embedding of `SandboxExecutor` (keyword extraction, content search parsing,
candidate narrowing, and the `updateFile` search/replace engine).
-/

/-- Result of one shell invocation, as exposed by the remote execution
environment collaborator.  Modelled from the spec: the collaborator
returns `{exitCode, stdout, stderr}` for every run. -/
structure CommandResult where
  exitCode : Int
  stdout : Str
  stderr : Str

/-- JavaScript `\w` character class `[A-Za-z0-9_]`. -/
def isWordChar (c : Char) : Bool :=
  decide (('a' ≤ c ∧ c ≤ 'z') ∨ ('A' ≤ c ∧ c ≤ 'Z') ∨ ('0' ≤ c ∧ c ≤ '9') ∨ c = '_')

/-- The fixed stop-word list of `extractKeywords`. -/
def stopWords : List Str :=
  [str ("the"), str ("a"), str ("an"), str ("and"), str ("or"), str ("but"), str ("in"),
   str ("on"), str ("at"), str ("to"), str ("for"), str ("of"), str ("with"), str ("by"),
   str ("from")]

/-- First-seen-order deduplication (JavaScript `[...new Set(words)]`);
`seen` accumulates the elements already emitted. -/
def dedupFirstAux (seen : List Str) : List Str → List Str
  | [] => []
  | x :: rest =>
    if x ∈ seen then dedupFirstAux seen rest
    else x :: dedupFirstAux (x :: seen) rest

/-- Deduplicate, keeping the first occurrence of each element. -/
def dedupFirst (l : List Str) : List Str := dedupFirstAux [] l

/-- `SandboxExecutor.extractKeywords`: lower-case, replace every character
that is neither a word character nor whitespace by a space, split on
whitespace runs, keep tokens longer than 2 characters that are not stop
words, and deduplicate. -/
def extractKeywords (prompt : Str) : List Str :=
  let words :=
    (splitWS ((jsToLower prompt).map (fun c => if isWordChar c || isSpaceChar c then c else ' '))).filter
      (fun word => decide (2 < word.length ∧ word ∉ stopWords))
  dedupFirst words

/-- `SandboxExecutor.searchFilesByContent`, given the result of the grep run:
split stdout on newlines, keep lines that are nonempty after trimming,
and keep only the first 20. -/
def searchFilesByContent (result : CommandResult) : List Str :=
  (((splitOnChar '\n' result.stdout).filter (fun path => !(jsTrim path).isEmpty)).take 20)

/-- `SandboxExecutor.selectFilesToModify` response parsing: trim the model
response, split on newlines, trim each line, and keep the lines that are
nonempty and start with `/`. -/
def parseSelectedFiles (text : Str) : List Str :=
  ((splitOnChar '\n' (jsTrim text)).map (fun line => jsTrim line)).filter
    (fun line => decide (0 < line.length) && jsStartsWith line (str ("/")))

/-- One `{search, replace}` pair of an `updateFile` operation. -/
structure SRPair where
  search : Str
  replace : Str

/-- The JavaScript `RegExp` engine used by `executeFileOperation` is external
to the repository; it is abstracted as a function from the pattern, the
subject and the replacement to either `none` (the pattern failed to compile,
or matching raised) or `some (n, r)` where `n` is the number of matches of
the global RegExp built from `search` in the subject and `r` is the result of
`subject.replace(regex, replace)`. -/
structure RegexEngine where
  tryRegex : Str → Str → Str → Option (Nat × Str)

/-- The literal fallback of `executeFileOperation`: if `search` occurs as an
exact substring, replace all occurrences via `split(search).join(replace)`;
otherwise leave the content unchanged. -/
def literalReplacePair (content : Str) (p : SRPair) : Str :=
  if jsIncludes content p.search then jsSplitJoin content p.search p.replace
  else content

/-- One iteration of the `updateFile` loop of `executeFileOperation`:
try the pattern as a regex; if it matches at least once, use the regex
replacement; on zero matches or a regex error, fall back to literal
replacement; if that also fails to match, leave the content unchanged. -/
def applySearchReplacePair (E : RegexEngine) (content : Str) (p : SRPair) : Str :=
  match E.tryRegex p.search content p.replace with
  | some (n, r) => if 0 < n then r else literalReplacePair content p
  | none => literalReplacePair content p

/-- The whole `updateFile` loop: the pairs are applied left to right, each
operating on the result of the previous one. -/
def applySearchReplaceList (E : RegexEngine) (content : Str) (ps : List SRPair) : Str :=
  ps.foldl (applySearchReplacePair E) content

/-- An engine on which every pattern fails to compile (every `search` is an
invalid regular expression). -/
def noRegexEngine : RegexEngine := ⟨fun _ _ _ => none⟩

/-- An engine on which every pattern matches exactly as a literal. -/
def literalRegexEngine : RegexEngine :=
  ⟨fun search content rep =>
    some (if jsIncludes content search then 1 else 0, jsSplitJoin content search rep)⟩

/-!
Embedding of the discovery controller (`executeSearch` in the LangGraph
state machine) and of the publish workflow pieces in the chat route.
-/

/-- The search tool selected by the `selectTool` state. -/
inductive SearchTool
  | grep
  | glob
  | regex
deriving DecidableEq

/-- The shell command built by the `executeSearch` state for the selected
tool, query and repository directory. -/
def buildSearchCommand (tool : SearchTool) (query repoPath : Str) : Str :=
  match tool with
  | .grep =>
      str ("grep -rl \"") ++ query ++ str ("\" ") ++ repoPath ++
        str (" --exclude-dir=node_modules --exclude-dir=.git --exclude-dir=dist 2>/dev/null || true")
  | .glob =>
      str ("find ") ++ repoPath ++ str (" -type f -name \"") ++ query ++
        str ("\" -not -path \"*/node_modules/*\" -not -path \"*/.git/*\"")
  | .regex =>
      str ("grep -rlE \"") ++ query ++ str ("\" ") ++ repoPath ++
        str (" --exclude-dir=node_modules --exclude-dir=.git 2>/dev/null || true")

/-- The `executeSearch` state: run the built command through the remote
execution environment (`run`, modelled from the spec: the collaborator
returns `{exitCode, stdout, stderr}`), split stdout on newlines, drop
blank lines, and drop any path still mentioning `node_modules`. -/
def executeSearch (run : Str → CommandResult) (tool : SearchTool) (query repoPath : Str) :
    List Str :=
  let result := run (buildSearchCommand tool query repoPath)
  ((splitOnChar '\n' result.stdout).filter (fun f => !(jsTrim f).isEmpty)).filter
    (fun f => !jsIncludes f (str ("node_modules")))

/-- Path resolution applied to every generated file operation in the chat
route: a path already starting with the repository path is used unchanged,
any other path is prefixed with `repoPath ++ "/"`. -/
def resolveOperationPath (repoPath p : Str) : Str :=
  if jsStartsWith p repoPath then p else repoPath ++ '/' :: p

/-- Modelled from the spec: "an absolute path lying under the workspace
root" — the path is the workspace root itself or starts with the root
followed by a path separator. -/
def specUnderWorkspaceRoot (root p : Str) : Bool :=
  decide (p = root) || jsStartsWith p (root ++ str ("/"))

/-- Membership in the character class `[a-z0-9]` kept by the branch slug. -/
def isSlugChar (c : Char) : Bool := decide (('a' ≤ c ∧ c ≤ 'z') ∨ ('0' ≤ c ∧ c ≤ '9'))

/-- Replace each maximal run of characters outside `[a-z0-9]` by one dash
(the JavaScript global replace of that character class); the Boolean records whether
the previous character was part of such a run. -/
def collapseNonAlnumAux : Bool → Str → Str
  | _, [] => []
  | inRun, c :: rest =>
    if isSlugChar c then c :: collapseNonAlnumAux false rest
    else if inRun then collapseNonAlnumAux true rest
    else '-' :: collapseNonAlnumAux true rest

/-- The JavaScript global dash-collapsing replace on an already lower-cased string. -/
def collapseNonAlnum (s : Str) : Str := collapseNonAlnumAux false s

/-- `sanitizedRequest` in the chat route:
lower-case the request, collapse runs outside the class to dashes, then keep
the first 30 characters of the collapsed form. -/
def sanitizedRequest (userRequest : Str) : Str :=
  jsSubstringTo (collapseNonAlnum (jsToLower userRequest)) 30

/-- `branchName` in the chat route: `ai-bot/<timestamp>-<sanitizedRequest>`;
the timestamp rendering of `Date.now()` is passed as a string. -/
def branchName (timestamp userRequest : Str) : Str :=
  str ("ai-bot/") ++ timestamp ++ '-' :: sanitizedRequest userRequest

/-- Modelled from the spec: "slug of first 30 chars of the request,
lowercased, non-alnum collapsed to a dash" — truncate to 30 characters first,
then lower-case and collapse. -/
def specSlugOfFirst30 (userRequest : Str) : Str :=
  collapseNonAlnum (jsToLower (jsSubstringTo userRequest 30))

/-- The results of the seven shell invocations of the publish workflow
git sequence, in program order (configure email, configure name, create
and check out the branch, stage, commit, resolve the commit hash, push),
as returned by the remote execution environment. -/
structure GitStepResults where
  configEmail : CommandResult
  configName : CommandResult
  checkout : CommandResult
  add : CommandResult
  commit : CommandResult
  revParse : CommandResult
  push : CommandResult

/-- The git sequence of the publish workflow in the chat route: each step
runs in order; the branch-creation, commit and push results have their
exit codes tested, and a nonzero exit raises the corresponding error with
the captured stderr; the remaining results are not inspected.  On success
the trimmed `git rev-parse HEAD` stdout is the commit hash. -/
def gitPublishSequence (r : GitStepResults) : Except Str Str :=
  if r.checkout.exitCode ≠ 0 then
    .error (str ("Failed to create branch: ") ++ r.checkout.stderr)
  else if r.commit.exitCode ≠ 0 then
    .error (str ("Failed to commit: ") ++ r.commit.stderr)
  else
    let commitHash := jsTrim r.revParse.stdout
    if r.push.exitCode ≠ 0 then
      .error (str ("Failed to push: ") ++ r.push.stderr)
    else .ok commitHash

/-!
Helper lemmas about deduplication and slug collapsing.
-/

/-- Every element emitted by `dedupFirstAux` comes from the input list. -/
theorem mem_of_mem_dedupFirstAux (l : List Str) : ∀ seen x, x ∈ dedupFirstAux seen l → x ∈ l := by
  induction l with
  | nil => intro seen x hx; simp [dedupFirstAux] at hx
  | cons y rest ih =>
    intro seen x hx
    by_cases hy : y ∈ seen
    · simp only [dedupFirstAux, if_pos hy] at hx
      exact List.mem_cons_of_mem _ (ih seen x hx)
    · simp only [dedupFirstAux, if_neg hy] at hx
      rcases List.mem_cons.mp hx with rfl | hx
      · exact List.mem_cons_self _ _
      · exact List.mem_cons_of_mem _ (ih (y :: seen) x hx)

/-- `dedupFirstAux` emits no duplicates and nothing that was already seen. -/
theorem dedupFirstAux_nodup (l : List Str) : ∀ seen,
    (dedupFirstAux seen l).Nodup ∧ ∀ x ∈ dedupFirstAux seen l, x ∉ seen := by
  induction l with
  | nil => intro seen; simp [dedupFirstAux]
  | cons y rest ih =>
    intro seen
    by_cases hy : y ∈ seen
    · simpa only [dedupFirstAux, if_pos hy] using ih seen
    · simp only [dedupFirstAux, if_neg hy]
      refine ⟨List.nodup_cons.mpr ⟨?_, (ih (y :: seen)).1⟩, ?_⟩
      · intro hmem
        exact (ih (y :: seen)).2 y hmem (List.mem_cons_self _ _)
      · intro x hx
        rcases List.mem_cons.mp hx with rfl | hx
        · exact hy
        · intro hxseen
          exact (ih (y :: seen)).2 x hx (List.mem_cons_of_mem _ hxseen)

/-- Every character emitted by the dash-collapsing replace is either in
`[a-z0-9]` or a dash. -/
theorem collapseNonAlnumAux_chars (s : Str) : ∀ b, ∀ c ∈ collapseNonAlnumAux b s,
    isSlugChar c = true ∨ c = '-' := by
  induction s with
  | nil => intro b c hc; simp [collapseNonAlnumAux] at hc
  | cons d rest ih =>
    intro b c hc
    cases hd : isSlugChar d with
    | true =>
      simp only [collapseNonAlnumAux, hd, if_pos] at hc
      rcases List.mem_cons.mp hc with rfl | hc
      · exact Or.inl hd
      · exact ih false c hc
    | false =>
      cases b with
      | true =>
        simp only [collapseNonAlnumAux, hd] at hc
        exact ih true c hc
      | false =>
        simp only [collapseNonAlnumAux, hd] at hc
        rcases List.mem_cons.mp hc with rfl | hc
        · exact Or.inr rfl
        · exact ih true c hc

/-!
Claim theorems.
-/

/-- C1: the search/replace pairs of an `updateFile` operation are applied in
list order to one evolving buffer — the list application of two pairs equals
the second pair applied to the result of the first; and a pair whose search
text is not present in the original content (neither as a regex match nor as
a literal substring) leaves the original content unchanged when applied
independently, so the chained composition is what produces the final
content. -/
theorem updateFile_pairs_sequential (E : RegexEngine) (content : Str) (p1 p2 : SRPair)
    (habs : jsIncludes content p2.search = false)
    (hreg : E.tryRegex p2.search content p2.replace = none ∨
      ∃ res, E.tryRegex p2.search content p2.replace = some (0, res)) :
    applySearchReplaceList E content [p1, p2]
        = applySearchReplacePair E (applySearchReplacePair E content p1) p2
      ∧ applySearchReplacePair E content p2 = content := by
  refine ⟨rfl, ?_⟩
  rcases hreg with h | ⟨res, h⟩ <;>
    simp [applySearchReplacePair, h, literalReplacePair, habs]

/-- Witness for C1: with every pattern an invalid regex, the pair
`xb → y` does not touch the original `ab`, while the chained application
first rewrites `ab` to `xb` and then to `y`. -/
theorem updateFile_pairs_sequential_witness :
    applySearchReplaceList noRegexEngine (str ("ab"))
        [⟨str ("a"), str ("x")⟩, ⟨str ("xb"), str ("y")⟩]
        = applySearchReplacePair noRegexEngine
            (applySearchReplacePair noRegexEngine (str ("ab")) ⟨str ("a"), str ("x")⟩)
            ⟨str ("xb"), str ("y")⟩
      ∧ applySearchReplacePair noRegexEngine (str ("ab")) ⟨str ("xb"), str ("y")⟩ = str ("ab") :=
  updateFile_pairs_sequential noRegexEngine (str ("ab")) ⟨str ("a"), str ("x")⟩
    ⟨str ("xb"), str ("y")⟩ (by decide) (Or.inl rfl)

/-- C2: one search/replace pair of `updateFile` is regex-first with a literal
fallback — if the pattern compiles and matches at least once, the regex
replacement is used; on zero matches or a compile failure, a verbatim
occurrence is replaced literally everywhere; and when neither matches the
content is returned unchanged (the pair never raises: the application is a
total function). -/
theorem updateFile_pair_regex_then_literal (E : RegexEngine) (content : Str) (p : SRPair) :
    (∀ n res, E.tryRegex p.search content p.replace = some (n, res) → 0 < n →
        applySearchReplacePair E content p = res)
    ∧ ((E.tryRegex p.search content p.replace = none ∨
          ∃ res, E.tryRegex p.search content p.replace = some (0, res)) →
        jsIncludes content p.search = true →
        applySearchReplacePair E content p = jsSplitJoin content p.search p.replace)
    ∧ ((E.tryRegex p.search content p.replace = none ∨
          ∃ res, E.tryRegex p.search content p.replace = some (0, res)) →
        jsIncludes content p.search = false →
        applySearchReplacePair E content p = content) := by
  refine ⟨?_, ?_, ?_⟩
  · intro n res h hn
    simp [applySearchReplacePair, h, hn]
  · intro h hinc
    rcases h with h | ⟨res, h⟩ <;>
      simp [applySearchReplacePair, h, literalReplacePair, hinc]
  · intro h hinc
    rcases h with h | ⟨res, h⟩ <;>
      simp [applySearchReplacePair, h, literalReplacePair, hinc]

/-- Witness for C2: a pattern that fails to compile (the engine returns
`none`) still succeeds through the literal fallback when the text is
present verbatim. -/
theorem updateFile_pair_regex_then_literal_witness :
    applySearchReplacePair noRegexEngine (str ("a(b)c(b)")) ⟨str ("(b)"), str ("X")⟩
      = jsSplitJoin (str ("a(b)c(b)")) (str ("(b)")) (str ("X")) :=
  (updateFile_pair_regex_then_literal noRegexEngine (str ("a(b)c(b)"))
    ⟨str ("(b)"), str ("X")⟩).2.1 (Or.inl rfl) (by decide)

/-- C9: the keyword extractor never returns a stop word or a token shorter
than 3 characters, and its output has no duplicates; as a plain function of
the prompt it is pure and deterministic. -/
theorem extractKeywords_filtered_nodup (prompt : Str) :
    (∀ w ∈ extractKeywords prompt, w ∉ stopWords ∧ 3 ≤ w.length)
    ∧ (extractKeywords prompt).Nodup := by
  constructor
  · intro w hw
    simp only [extractKeywords, dedupFirst] at hw
    have hw2 := mem_of_mem_dedupFirstAux _ _ _ hw
    have hp := of_decide_eq_true (List.mem_filter.mp hw2).2
    exact ⟨hp.2, hp.1⟩
  · simp only [extractKeywords, dedupFirst]
    exact (dedupFirstAux_nodup _ []).1

/-- Witness for C9 at a concrete prompt containing stop words, short tokens
and a duplicate. -/
theorem extractKeywords_filtered_nodup_witness :
    str ("divide") ∉ stopWords ∧ 3 ≤ (str ("divide")).length :=
  (extractKeywords_filtered_nodup (str ("Add the divide function, divide it!"))).1
    (str ("divide")) (by decide)

/-- C10: the content-based candidate search returns at most 20 paths: the
kept entries are lines of the grep stdout that are nonempty after trimming,
and whenever more than 20 such lines exist exactly the first 20 survive. -/
theorem searchFilesByContent_at_most_20 (result : CommandResult) :
    (searchFilesByContent result).length ≤ 20
    ∧ (∀ f ∈ searchFilesByContent result,
        f ∈ splitOnChar '\n' result.stdout ∧ jsTrim f ≠ [])
    ∧ (20 ≤ ((splitOnChar '\n' result.stdout).filter
          (fun path => !(jsTrim path).isEmpty)).length →
        (searchFilesByContent result).length = 20) := by
  refine ⟨?_, ?_, ?_⟩
  · simp [searchFilesByContent]
  · intro f hf
    have hf2 : f ∈ (splitOnChar '\n' result.stdout).filter
        (fun path => !(jsTrim path).isEmpty) := by
      exact List.take_subset _ _ (by simpa [searchFilesByContent] using hf)
    have hm := List.mem_filter.mp hf2
    refine ⟨hm.1, ?_⟩
    intro hnil
    have hb := hm.2
    rw [hnil] at hb
    simp at hb
  · intro h
    simp only [searchFilesByContent, List.length_take]
    omega

/-- Witness for C10: a grep output with 22 nonempty lines is truncated to
exactly 20 candidates. -/
theorem searchFilesByContent_at_most_20_witness :
    (searchFilesByContent ⟨0,
      str ("a\nb\nc\nd\ne\nf\ng\nh\ni\nj\nk\nl\nm\nn\no\np\nq\nr\ns\nt\nu\nv"),
      []⟩).length = 20 :=
  (searchFilesByContent_at_most_20 ⟨0,
      str ("a\nb\nc\nd\ne\nf\ng\nh\ni\nj\nk\nl\nm\nn\no\np\nq\nr\ns\nt\nu\nv"),
      []⟩).2.2 (by decide)

/-- C3 counterexample: a generated path that merely extends the workspace
root as a string (a sibling directory) carries the prefix, is therefore
used unchanged, and does not lie under the workspace root directory. -/
theorem resolveOperationPath_escapes_root :
    resolveOperationPath (str ("/home/user/project")) (str ("/home/user/projectEvil/secret.txt"))
        = str ("/home/user/projectEvil/secret.txt")
      ∧ specUnderWorkspaceRoot (str ("/home/user/project"))
          (str ("/home/user/projectEvil/secret.txt")) = false := by
  decide

/-- C3 amended: the resolved path always carries the workspace root as a
string prefix — a path already starting with the root is used unchanged and
any other path is prefixed with the root and a slash — but a string prefix
does not guarantee the path denotes a location under the workspace root. -/
theorem resolveOperationPath_prefix_shape (repoPath p : Str) :
    jsStartsWith (resolveOperationPath repoPath p) repoPath = true
    ∧ (jsStartsWith p repoPath = true → resolveOperationPath repoPath p = p)
    ∧ (jsStartsWith p repoPath = false →
        resolveOperationPath repoPath p = repoPath ++ '/' :: p) := by
  refine ⟨?_, ?_, ?_⟩
  · by_cases h : jsStartsWith p repoPath = true
    · simp [resolveOperationPath, h]
    · have hb : jsStartsWith p repoPath = false := by
        cases hx : jsStartsWith p repoPath
        · rfl
        · exact absurd hx h
      simp only [resolveOperationPath, hb, Bool.false_eq_true, if_false]
      exact isPrefixOf_append_self repoPath ('/' :: p)
  · intro h
    simp [resolveOperationPath, h]
  · intro h
    simp [resolveOperationPath, h]

/-- Witness for the amended C3 at a relative path, which gets the workspace
root prepended. -/
theorem resolveOperationPath_prefix_shape_witness :
    jsStartsWith (resolveOperationPath (str ("/home/user/project")) (str ("src/app.ts")))
        (str ("/home/user/project")) = true
      ∧ resolveOperationPath (str ("/home/user/project")) (str ("src/app.ts"))
        = str ("/home/user/project") ++ '/' :: str ("src/app.ts") :=
  ⟨(resolveOperationPath_prefix_shape (str ("/home/user/project")) (str ("src/app.ts"))).1,
   (resolveOperationPath_prefix_shape (str ("/home/user/project")) (str ("src/app.ts"))).2.2
     (by decide)⟩

/-- C4 counterexample: a run that exits nonzero while still printing a path
(as the glob find command can, having no exit-code masking) does not yield
the empty list — the exit code is never inspected, and the printed path is
returned. -/
theorem executeSearch_nonzero_exit_can_return_files :
    executeSearch (fun _ => ⟨1, str ("/repo/a.ts"), str ("find: permission denied")⟩)
        SearchTool.glob (str ("*.ts")) (str ("/repo")) = [str ("/repo/a.ts")]
      ∧ executeSearch (fun _ => ⟨1, str ("/repo/a.ts"), str ("find: permission denied")⟩)
        SearchTool.glob (str ("*.ts")) (str ("/repo")) ≠ [] := by
  decide

/-- C4 amended: the search step is total and never raises — for every tool
and query it returns a (possibly empty) file list computed from the stdout
of the run alone; the exit code and stderr are never inspected, and the
list is empty whenever stdout is empty (which is how the failure-masked
grep and regex commands fail), but a nonzero-exit run that still printed
paths returns those paths. -/
theorem executeSearch_stdout_only (run1 run2 : Str → CommandResult)
    (tool : SearchTool) (query repoPath : Str)
    (hsame : (run1 (buildSearchCommand tool query repoPath)).stdout
           = (run2 (buildSearchCommand tool query repoPath)).stdout) :
    executeSearch run1 tool query repoPath = executeSearch run2 tool query repoPath
    ∧ ((run1 (buildSearchCommand tool query repoPath)).stdout = [] →
        executeSearch run1 tool query repoPath = []) := by
  constructor
  · simp only [executeSearch]
    rw [hsame]
  · intro hout
    simp only [executeSearch]
    rw [hout]
    decide

/-- Witness for the amended C4: a run that exits 1 with empty stdout behaves
like a clean run with empty stdout, and produces no candidate files. -/
theorem executeSearch_stdout_only_witness :
    executeSearch (fun _ => ⟨1, [], str ("grep: error")⟩) SearchTool.grep
        (str ("q")) (str ("/repo"))
      = executeSearch (fun _ => ⟨0, [], []⟩) SearchTool.grep (str ("q")) (str ("/repo"))
    ∧ executeSearch (fun _ => ⟨1, [], str ("grep: error")⟩) SearchTool.grep
        (str ("q")) (str ("/repo")) = [] :=
  ⟨(executeSearch_stdout_only (fun _ => ⟨1, [], str ("grep: error")⟩) (fun _ => ⟨0, [], []⟩)
      SearchTool.grep (str ("q")) (str ("/repo")) rfl).1,
   (executeSearch_stdout_only (fun _ => ⟨1, [], str ("grep: error")⟩) (fun _ => ⟨0, [], []⟩)
      SearchTool.grep (str ("q")) (str ("/repo")) rfl).2 rfl⟩

/-- C5 counterexample: a nonzero exit of the staging step (`git add .`) does
not abort the sequence — its exit code is never read, and the workflow
proceeds to a successful result. -/
theorem gitPublishSequence_ignores_add_exit :
    gitPublishSequence ⟨⟨0, [], []⟩, ⟨0, [], []⟩, ⟨0, [], []⟩,
        ⟨1, [], str ("fatal: add failed")⟩, ⟨0, [], []⟩,
        ⟨0, str ("abc123\n"), []⟩, ⟨0, [], []⟩⟩
      = .ok (str ("abc123")) := rfl

/-- C5 amended: only the branch-creation, commit and push steps check their
exit codes, each raising immediately with the captured stderr; the two git
config steps, the staging step and the commit-hash resolution never have
their exit codes inspected, so the sequence succeeds whenever branch
creation, commit and push exit zero. -/
theorem gitPublishSequence_checked_steps (r : GitStepResults) :
    (r.checkout.exitCode ≠ 0 →
      gitPublishSequence r = .error (str ("Failed to create branch: ") ++ r.checkout.stderr))
    ∧ (r.checkout.exitCode = 0 → r.commit.exitCode ≠ 0 →
      gitPublishSequence r = .error (str ("Failed to commit: ") ++ r.commit.stderr))
    ∧ (r.checkout.exitCode = 0 → r.commit.exitCode = 0 → r.push.exitCode ≠ 0 →
      gitPublishSequence r = .error (str ("Failed to push: ") ++ r.push.stderr))
    ∧ (r.checkout.exitCode = 0 → r.commit.exitCode = 0 → r.push.exitCode = 0 →
      gitPublishSequence r = .ok (jsTrim r.revParse.stdout)) := by
  refine ⟨?_, ?_, ?_, ?_⟩
  · intro h1
    simp [gitPublishSequence, h1]
  · intro h1 h2
    simp [gitPublishSequence, h1, h2]
  · intro h1 h2 h3
    simp [gitPublishSequence, h1, h2, h3]
  · intro h1 h2 h3
    simp [gitPublishSequence, h1, h2, h3]

/-- Witness for the amended C5: a failing branch creation raises with the
captured stderr. -/
theorem gitPublishSequence_checked_steps_witness :
    gitPublishSequence ⟨⟨0, [], []⟩, ⟨0, [], []⟩, ⟨1, [], str ("branch exists")⟩,
        ⟨0, [], []⟩, ⟨0, [], []⟩, ⟨0, [], []⟩, ⟨0, [], []⟩⟩
      = .error (str ("Failed to create branch: ") ++ str ("branch exists")) :=
  (gitPublishSequence_checked_steps ⟨⟨0, [], []⟩, ⟨0, [], []⟩, ⟨1, [], str ("branch exists")⟩,
      ⟨0, [], []⟩, ⟨0, [], []⟩, ⟨0, [], []⟩, ⟨0, [], []⟩⟩).1 (by decide)

/-- C6 counterexample: the narrower keeps every trimmed nonempty line that
starts with a slash, not only lines carrying the workspace-root prefix — a
path outside the workspace is kept. -/
theorem parseSelectedFiles_keeps_non_workspace_path :
    parseSelectedFiles (str ("/etc/passwd")) = [str ("/etc/passwd")]
      ∧ jsStartsWith (str ("/etc/passwd")) (str ("/home/user/project")) = false := by
  decide

/-- C6 amended: the narrower keeps exactly the trimmed lines that are
nonempty and begin with a slash; every returned path therefore starts with
`/` (not necessarily with the workspace root), and when no line qualifies
the result is the empty list rather than an error. -/
theorem parseSelectedFiles_slash_lines (text : Str) :
    (∀ l ∈ parseSelectedFiles text, l ≠ [] ∧ jsStartsWith l (str ("/")) = true)
    ∧ ((∀ l ∈ (splitOnChar '\n' (jsTrim text)).map (fun line => jsTrim line),
          (decide (0 < l.length) && jsStartsWith l (str ("/"))) = false) →
        parseSelectedFiles text = []) := by
  constructor
  · intro l hl
    have h := (List.mem_filter.mp hl).2
    rw [Bool.and_eq_true] at h
    refine ⟨?_, h.2⟩
    have hlen := of_decide_eq_true h.1
    intro hnil
    rw [hnil] at hlen
    simp at hlen
  · intro h
    exact List.filter_eq_nil_iff.mpr (fun a ha => by simp [h a ha])

/-- Witness for the amended C6: a response with no qualifying line parses to
the empty list. -/
theorem parseSelectedFiles_slash_lines_witness :
    parseSelectedFiles (str ("none of these lines qualify")) = [] :=
  (parseSelectedFiles_slash_lines (str ("none of these lines qualify"))).2 (by decide)

/-- C7 counterexample: the grep command excludes `dist` but the regex and
glob commands do not mention `dist` at all. -/
theorem searchCommand_exclusions_differ :
    jsIncludes (buildSearchCommand SearchTool.grep (str ("q")) (str ("/repo")))
        (str ("--exclude-dir=dist")) = true
      ∧ jsIncludes (buildSearchCommand SearchTool.regex (str ("q")) (str ("/repo")))
        (str ("dist")) = false
      ∧ jsIncludes (buildSearchCommand SearchTool.glob (str ("*.ts")) (str ("/repo")))
        (str ("dist")) = false := by
  decide

/-- C7 amended: all three tools exclude `node_modules` and `.git`, but only
the grep command carries the `dist` exclusion; the glob and regex commands
have no `dist` exclusion. -/
theorem searchCommand_per_tool_exclusions (query repoPath : Str) :
    (jsIncludes (buildSearchCommand SearchTool.grep query repoPath)
        (str ("--exclude-dir=node_modules")) = true
      ∧ jsIncludes (buildSearchCommand SearchTool.grep query repoPath)
        (str ("--exclude-dir=.git")) = true
      ∧ jsIncludes (buildSearchCommand SearchTool.grep query repoPath)
        (str ("--exclude-dir=dist")) = true)
    ∧ (jsIncludes (buildSearchCommand SearchTool.glob query repoPath)
        (str ("*/node_modules/*")) = true
      ∧ jsIncludes (buildSearchCommand SearchTool.glob query repoPath)
        (str ("*/.git/*")) = true
      ∧ jsIncludes (buildSearchCommand SearchTool.glob (str ("*.ts"))
          (str ("/home/user/project"))) (str ("dist")) = false)
    ∧ (jsIncludes (buildSearchCommand SearchTool.regex query repoPath)
        (str ("--exclude-dir=node_modules")) = true
      ∧ jsIncludes (buildSearchCommand SearchTool.regex query repoPath)
        (str ("--exclude-dir=.git")) = true
      ∧ jsIncludes (buildSearchCommand SearchTool.regex (str ("pattern"))
          (str ("/home/user/project"))) (str ("dist")) = false) := by
  refine ⟨⟨?_, ?_, ?_⟩, ⟨?_, ?_, by decide⟩, ⟨?_, ?_, by decide⟩⟩ <;>
    (simp only [buildSearchCommand]
     apply jsIncludes_append_left
     decide)

/-- C8 counterexample: the code slugifies the whole request and then takes
the first 30 characters of the slug; taking the first 30 characters of the
request before slugifying — the order the claim states — gives a different
branch slug on a request whose non-alphanumeric run is collapsed. -/
theorem sanitizedRequest_truncates_after_collapse :
    sanitizedRequest (str ("a!!!!!!!!!!!!!!!!!!!!!!!!!!!!!!bcd")) = str ("a-bcd")
      ∧ specSlugOfFirst30 (str ("a!!!!!!!!!!!!!!!!!!!!!!!!!!!!!!bcd")) = str ("a-")
      ∧ branchName (str ("1700000000000")) (str ("a!!!!!!!!!!!!!!!!!!!!!!!!!!!!!!bcd"))
        = str ("ai-bot/1700000000000-a-bcd")
      ∧ sanitizedRequest (str ("a!!!!!!!!!!!!!!!!!!!!!!!!!!!!!!bcd"))
        ≠ specSlugOfFirst30 (str ("a!!!!!!!!!!!!!!!!!!!!!!!!!!!!!!bcd")) := by
  decide

/-- C8 amended: the branch name is `ai-bot/<timestamp>-<slug>` where the slug
is the first 30 characters of the lowercased request with every maximal run
of non-alphanumeric characters collapsed to a single dash — collapse first,
then truncate; the slug is at most 30 characters and consists of lowercase
alphanumerics and dashes. -/
theorem branchName_slug_shape (timestamp userRequest : Str) :
    branchName timestamp userRequest
        = str ("ai-bot/") ++ timestamp ++ '-' :: sanitizedRequest userRequest
    ∧ (sanitizedRequest userRequest).length ≤ 30
    ∧ (∀ c ∈ sanitizedRequest userRequest, isSlugChar c = true ∨ c = '-')
    ∧ sanitizedRequest userRequest = (collapseNonAlnum (jsToLower userRequest)).take 30 := by
  refine ⟨rfl, ?_, ?_, rfl⟩
  · simp [sanitizedRequest, jsSubstringTo]
  · intro c hc
    have hc2 : c ∈ collapseNonAlnum (jsToLower userRequest) :=
      List.take_subset _ _ (by simpa [sanitizedRequest, jsSubstringTo] using hc)
    simpa using collapseNonAlnumAux_chars (jsToLower userRequest) false c
      (by simpa [collapseNonAlnum] using hc2)

/-- Witness for the amended C8 at a concrete request. -/
theorem branchName_slug_shape_witness :
    isSlugChar 'f' = true ∨ 'f' = '-' :=
  (branchName_slug_shape (str ("1712345678901")) (str ("Fix: bug"))).2.2.1 'f' (by decide)
